import Mathlib

/-!
Verification of the dify-mcp-proxy core (request validation, error responses,
cache manager, circuit breaker, retry policy and the processRequest pipeline)
against a shallow embedding of the JavaScript source.

The JavaScript modules embedded here are:
  - the proxy manager (ProxyManager.processRequest, isValidMCPRequest,
    forwardRequest, setupAxiosRetry, getPriority),
  - the errors module (ErrorCodes, createErrorResponse, handleProxyError),
  - the cache manager (generateCacheKey, shouldCache, getCacheTTL, get, set),
  - the circuit breaker (execute, onSuccess, onFailure, trip, reset).

JavaScript values are modelled by the inductive type JsValue; property access
on null and undefined raises a TypeError, which the embedding propagates as an
Except error.  The node-cache store is modelled as an association list of
entries with absolute expiry timestamps; md5 from the crypto module is
implemented in full; JSON.stringify is implemented for values without
characters needing escapes (the fragment exercised by the proxy).
-/

/-- JS runtime values, as used by the proxy: null, undefined, booleans,
(integer) numbers, strings, arrays and plain objects.  Objects are ordered
field lists, matching insertion order as observed by JSON.stringify. -/
inductive JsValue where
  | null : JsValue
  | undefined : JsValue
  | bool : Bool → JsValue
  | num : Int → JsValue
  | str : String → JsValue
  | arr : List JsValue → JsValue
  | obj : List (String × JsValue) → JsValue

mutual

/-- Structural equality of JS values (JS strict equality on the primitive
values compared by the proxy; the proxy never compares objects by value). -/
def jsEq : JsValue → JsValue → Bool
  | .null, .null => true
  | .undefined, .undefined => true
  | .bool a, .bool b => a == b
  | .num a, .num b => a == b
  | .str a, .str b => a == b
  | .arr a, .arr b => jsEqList a b
  | .obj a, .obj b => jsEqFields a b
  | _, _ => false

/-- Elementwise equality of JS value lists. -/
def jsEqList : List JsValue → List JsValue → Bool
  | [], [] => true
  | x :: xs, y :: ys => jsEq x y && jsEqList xs ys
  | _, _ => false

/-- Elementwise equality of JS object field lists. -/
def jsEqFields : List (String × JsValue) → List (String × JsValue) → Bool
  | [], [] => true
  | (k1, v1) :: xs, (k2, v2) :: ys => k1 == k2 && jsEq v1 v2 && jsEqFields xs ys
  | _, _ => false

end

instance : BEq JsValue := ⟨jsEq⟩

/-- JS truthiness: null, undefined, false, 0 and the empty string are falsy;
every object and array is truthy. -/
def truthy : JsValue → Bool
  | .null => false
  | .undefined => false
  | .bool b => b
  | .num n => n != 0
  | .str s => s != ""
  | .arr _ => true
  | .obj _ => true

/-- Whether the value is exactly null (JS strict comparison with null). -/
def isNull : JsValue → Bool
  | .null => true
  | _ => false

/-- Whether the value is exactly undefined (JS strict comparison). -/
def isUndefined : JsValue → Bool
  | .undefined => true
  | _ => false

/-- Whether typeof yields the string string. -/
def isStringV : JsValue → Bool
  | .str _ => true
  | _ => false

/-- Whether typeof yields the string object (true for null, arrays and
objects, as in JS). -/
def isObjectT : JsValue → Bool
  | .null => true
  | .arr _ => true
  | .obj _ => true
  | _ => false

/-- First-match field lookup in an object field list (the objects built by
this code have unique keys, so first match agrees with JS semantics). -/
def lookupField : List (String × JsValue) → String → Option JsValue
  | [], _ => none
  | (k, v) :: rest, key => if key = k then some v else lookupField rest key

/-- Model of an exception value thrown in the JS code: an optional code
property, a message, and an optional attached HTTP response (status and
body). -/
structure JsError where
  code : Option String
  message : String
  respStatus : Option Nat
  respData : JsValue

/-- TypeError raised by property access on null or undefined. -/
def typeErrorRead (target : String) (key : String) : JsError :=
  { code := none
    message := "Cannot read properties of " ++ target ++ " (reading " ++ key ++ ")"
    respStatus := none
    respData := .null }

/-- JS property access: throws a TypeError on null or undefined, returns the
field value on objects (undefined when absent), and undefined on other
primitives (none of the properties read by the proxy exist on primitives). -/
def getProp (v : JsValue) (key : String) : Except JsError JsValue :=
  match v with
  | .null => .error (typeErrorRead "null" key)
  | .undefined => .error (typeErrorRead "undefined" key)
  | .obj fs => .ok ((lookupField fs key).getD .undefined)
  | _ => .ok .undefined

/-- Total property access for contexts where the target is known not to be
null or undefined (JS never throws there); defaults to undefined. -/
def getPropD (v : JsValue) (key : String) : JsValue :=
  match getProp v key with
  | .ok r => r
  | .error _ => .undefined

/-- Whether an object value has a given key (regardless of the value). -/
def hasField (v : JsValue) (key : String) : Bool :=
  match v with
  | .obj fs => fs.any (fun f => f.1 == key)
  | _ => false

/-- String conversion as performed by JS template literals and property keys,
for the values that can appear as a method name. -/
def jsTemplate : JsValue → String
  | .null => "null"
  | .undefined => "undefined"
  | .bool b => if b then "true" else "false"
  | .num n => toString n
  | .str s => s
  | .arr _ => ""
  | .obj _ => "[object Object]"

/-! ## The errors module: ErrorCodes, createErrorResponse, handleProxyError -/

/-- ErrorCodes.INVALID_REQUEST. -/
def INVALID_REQUEST : Int := -32600
/-- ErrorCodes.METHOD_NOT_FOUND. -/
def METHOD_NOT_FOUND : Int := -32601
/-- ErrorCodes.INVALID_PARAMS. -/
def INVALID_PARAMS : Int := -32602
/-- ErrorCodes.INTERNAL_ERROR. -/
def INTERNAL_ERROR : Int := -32603
/-- ErrorCodes.SERVER_UNAVAILABLE. -/
def SERVER_UNAVAILABLE : Int := -32001
/-- ErrorCodes.REQUEST_TIMEOUT. -/
def REQUEST_TIMEOUT : Int := -32002
/-- ErrorCodes.CIRCUIT_BREAKER_OPEN. -/
def CIRCUIT_BREAKER_OPEN : Int := -32003
/-- ErrorCodes.PROXY_ERROR. -/
def PROXY_ERROR : Int := -32004

/-- createErrorResponse from the errors module: builds the response object
with jsonrpc and error fields, attaches data only when it is not null, and
attaches the id key only when the id is not null (the JS source checks
data !== null and id !== null). -/
def createErrorResponse (code : Int) (message : String) (data : JsValue) (id : JsValue) :
    JsValue :=
  let errFields :=
    if isNull data then
      [("code", JsValue.num code), ("message", JsValue.str message)]
    else
      [("code", JsValue.num code), ("message", JsValue.str message), ("data", data)]
  let base := [("jsonrpc", JsValue.str "2.0"), ("error", JsValue.obj errFields)]
  JsValue.obj (if isNull id then base else base ++ [("id", id)])

/-- JS default-parameter coercion: an undefined argument selects the declared
default value null (used when the caller passes mcpRequest.id and the id
field is absent). -/
def normArg (v : JsValue) : JsValue :=
  if isUndefined v then .null else v

/-- handleProxyError from the errors module: classifies a thrown error by its
code property (connection errors, timeouts), then by the presence of an HTTP
response, and otherwise returns an internal error.  All calls pass the id
default, so none of these responses carries an id key. -/
def handleProxyError (error : JsError) (serverId : String) : JsValue :=
  if error.code = some "ECONNREFUSED" ∨ error.code = some "ENOTFOUND" then
    createErrorResponse SERVER_UNAVAILABLE
      ("无法连接到 Dify 服务 (" ++ serverId ++ ")")
      (JsValue.obj [("retry_after", JsValue.num 30), ("server_id", JsValue.str serverId)])
      JsValue.null
  else if error.code = some "ETIMEDOUT" ∨ error.code = some "ECONNABORTED" then
    createErrorResponse REQUEST_TIMEOUT
      "请求超时，请稍后重试"
      (JsValue.obj [("timeout", JsValue.bool true), ("server_id", JsValue.str serverId)])
      JsValue.null
  else
    match error.respStatus with
    | some status =>
        createErrorResponse PROXY_ERROR
          ("Dify 服务器错误: " ++ toString status)
          (JsValue.obj [("status_code", JsValue.num status),
                        ("server_id", JsValue.str serverId),
                        ("response_data", error.respData)])
          JsValue.null
    | none =>
        createErrorResponse INTERNAL_ERROR
          "内部服务器错误"
          (JsValue.obj [("server_id", JsValue.str serverId)])
          JsValue.null

/-! ## Request validation (ProxyManager.isValidMCPRequest) -/

/-- isValidMCPRequest: the request must be truthy, its jsonrpc field must be
the string 2.0, its method field must be a string (the JS source checks only
typeof, so the empty string passes), and its id field must not be undefined.
When the request is truthy, property access cannot throw, so the boolean
reading below is exact. -/
def isValidMCPRequest (r : JsValue) : Bool :=
  truthy r
    && (getPropD r "jsonrpc" == JsValue.str "2.0")
    && isStringV (getPropD r "method")
    && !(isUndefined (getPropD r "id"))

/-! ## JSON.stringify (the fragment used on params objects) -/

mutual

/-- JSON.stringify: none models the JS result undefined (stringify of
undefined itself).  String contents are emitted without escaping, which is
exact for strings free of quotes, backslashes and control characters (all
params serialized by the proxy in this development are of that form). -/
def stringifyV : JsValue → Option String
  | .null => some "null"
  | .undefined => none
  | .bool b => some (if b then "true" else "false")
  | .num n => some (toString n)
  | .str s => some ("\"" ++ s ++ "\"")
  | .arr xs => some ("[" ++ String.intercalate "," (stringifyArr xs) ++ "]")
  | .obj fs => some ("\x7b" ++ String.intercalate "," (stringifyFields fs) ++ "\x7d")

/-- Array elements: undefined serializes as null inside arrays. -/
def stringifyArr : List JsValue → List String
  | [] => []
  | x :: xs =>
      (match stringifyV x with
       | some s => s
       | none => "null") :: stringifyArr xs

/-- Object fields: fields whose value serializes to undefined are skipped. -/
def stringifyFields : List (String × JsValue) → List String
  | [] => []
  | (k, v) :: fs =>
      match stringifyV v with
      | some s => ("\"" ++ k ++ "\":" ++ s) :: stringifyFields fs
      | none => stringifyFields fs

end

/-! ## MD5 (crypto.createHash md5, as used by generateCacheKey)

A complete implementation of MD5 over natural numbers, with 32-bit words
represented as Nat reduced mod 2 ^ 32. -/

/-- 2 ^ 32, the word modulus. -/
def w32 : Nat := 4294967296

/-- Addition mod 2 ^ 32. -/
def add32 (a b : Nat) : Nat := (a + b) % w32

/-- 32-bit left rotation (arguments already reduced mod 2 ^ 32). -/
def rotl32 (x s : Nat) : Nat := ((x <<< s) % w32) ||| (x >>> (32 - s))

/-- Bitwise complement on 32 bits. -/
def not32 (x : Nat) : Nat := 4294967295 ^^^ x

/-- The 64 MD5 sine-derived constants. -/
def md5K : List Nat :=
  [0xd76aa478, 0xe8c7b756, 0x242070db, 0xc1bdceee,
   0xf57c0faf, 0x4787c62a, 0xa8304613, 0xfd469501,
   0x698098d8, 0x8b44f7af, 0xffff5bb1, 0x895cd7be,
   0x6b901122, 0xfd987193, 0xa679438e, 0x49b40821,
   0xf61e2562, 0xc040b340, 0x265e5a51, 0xe9b6c7aa,
   0xd62f105d, 0x02441453, 0xd8a1e681, 0xe7d3fbc8,
   0x21e1cde6, 0xc33707d6, 0xf4d50d87, 0x455a14ed,
   0xa9e3e905, 0xfcefa3f8, 0x676f02d9, 0x8d2a4c8a,
   0xfffa3942, 0x8771f681, 0x6d9d6122, 0xfde5380c,
   0xa4beea44, 0x4bdecfa9, 0xf6bb4b60, 0xbebfbc70,
   0x289b7ec6, 0xeaa127fa, 0xd4ef3085, 0x04881d05,
   0xd9d4d039, 0xe6db99e5, 0x1fa27cf8, 0xc4ac5665,
   0xf4292244, 0x432aff97, 0xab9423a7, 0xfc93a039,
   0x655b59c3, 0x8f0ccc92, 0xffeff47d, 0x85845dd1,
   0x6fa87e4f, 0xfe2ce6e0, 0xa3014314, 0x4e0811a1,
   0xf7537e82, 0xbd3af235, 0x2ad7d2bb, 0xeb86d391]

/-- The 64 MD5 per-round left-rotation amounts. -/
def md5S : List Nat :=
  [7, 12, 17, 22, 7, 12, 17, 22, 7, 12, 17, 22, 7, 12, 17, 22,
   5, 9, 14, 20, 5, 9, 14, 20, 5, 9, 14, 20, 5, 9, 14, 20,
   4, 11, 16, 23, 4, 11, 16, 23, 4, 11, 16, 23, 4, 11, 16, 23,
   6, 10, 15, 21, 6, 10, 15, 21, 6, 10, 15, 21, 6, 10, 15, 21]

/-- One MD5 round: i is the round index, m the 16 message words. -/
def md5Round (m : List Nat) (st : Nat × Nat × Nat × Nat) (i : Nat) :
    Nat × Nat × Nat × Nat :=
  let (a, b, c, d) := st
  let f :=
    if i < 16 then (b &&& c) ||| (not32 b &&& d)
    else if i < 32 then (d &&& b) ||| (not32 d &&& c)
    else if i < 48 then b ^^^ c ^^^ d
    else c ^^^ (b ||| not32 d)
  let g :=
    if i < 16 then i
    else if i < 32 then (5 * i + 1) % 16
    else if i < 48 then (3 * i + 5) % 16
    else (7 * i) % 16
  let tmp := add32 (add32 (add32 f a) (md5K.getD i 0)) (m.getD g 0)
  (d, add32 b (rotl32 tmp (md5S.getD i 0)), b, c)

/-- Decode 64 bytes into 16 little-endian 32-bit words. -/
def md5Words (block : List Nat) : List Nat :=
  (List.range 16).map fun j =>
    block.getD (4 * j) 0 + 256 * block.getD (4 * j + 1) 0 +
      65536 * block.getD (4 * j + 2) 0 + 16777216 * block.getD (4 * j + 3) 0

/-- Compress one 64-byte block into the running state. -/
def md5Block (st : Nat × Nat × Nat × Nat) (block : List Nat) :
    Nat × Nat × Nat × Nat :=
  let (a0, b0, c0, d0) := st
  let m := md5Words block
  let (a, b, c, d) := (List.range 64).foldl (md5Round m) (a0, b0, c0, d0)
  (add32 a0 a, add32 b0 b, add32 c0 c, add32 d0 d)

/-- MD5 padding: append the 0x80 byte, zeros to 56 mod 64, and the bit length
as 8 little-endian bytes. -/
def md5Pad (msg : List Nat) : List Nat :=
  let len := msg.length
  let z := (120 - (len + 1) % 64) % 64
  let bits := (8 * len) % (2 ^ 64)
  msg ++ [128] ++ List.replicate z 0 ++
    (List.range 8).map (fun j => (bits >>> (8 * j)) &&& 255)

/-- Split into 64-byte blocks, with fuel for structural recursion (the fuel
is the list length, which bounds the number of blocks). -/
def chunksAux : Nat → List Nat → List (List Nat)
  | 0, _ => []
  | _, [] => []
  | fuel + 1, x :: xs => (x :: xs).take 64 :: chunksAux fuel ((x :: xs).drop 64)

/-- Split into 64-byte blocks. -/
def chunks64 (l : List Nat) : List (List Nat) :=
  chunksAux l.length l

/-- Lowercase hex digit. -/
def hexChar (n : Nat) : Char :=
  if n < 10 then Char.ofNat (48 + n) else Char.ofNat (87 + n)

/-- Two lowercase hex digits of a byte. -/
def byteHex (b : Nat) : String :=
  String.mk [hexChar (b / 16), hexChar (b % 16)]

/-- The 4 little-endian bytes of a 32-bit word. -/
def wordBytes (x : Nat) : List Nat :=
  [x &&& 255, (x >>> 8) &&& 255, (x >>> 16) &&& 255, (x >>> 24) &&& 255]

/-- Bytes of a string (exact for ASCII content, which is all the proxy ever
hashes: serialized JSON built from ASCII keys and values). -/
def strBytes (s : String) : List Nat :=
  s.toList.map Char.toNat

/-- digest hex of crypto.createHash md5: full MD5 of the UTF-8 bytes,
formatted as 32 lowercase hex characters. -/
def md5Hex (s : String) : String :=
  let (a, b, c, d) :=
    (chunks64 (md5Pad (strBytes s))).foldl md5Block
      (0x67452301, 0xefcdab89, 0x98badcfe, 0x10325476)
  String.join (([a, b, c, d].flatMap wordBytes).map byteHex)

/-! ## CacheManager (cache.js) -/

/-- The per-method TTL table (seconds): initialize 600, tools/list 300,
tools/call 0; anything else is absent. -/
def cacheTTLTable : String → Option Nat
  | "initialize" => some 600
  | "tools/list" => some 300
  | "tools/call" => some 0
  | _ => none

/-- shouldCache: the method has a TTL entry and it is positive. -/
def shouldCache (method : String) : Bool :=
  match cacheTTLTable method with
  | some ttl => decide (0 < ttl)
  | none => false

/-- getCacheTTL: the configured TTL, or 0 (the JS source reads the table and
falls back with a logical or). -/
def getCacheTTL (method : String) : Nat :=
  (cacheTTLTable method).getD 0

/-- generateCacheKey: serverId, method and the md5 hex digest of
JSON.stringify of params (or the literal no-params when params is falsy),
joined by colons.  No canonicalization is applied to params before
stringification. -/
def generateCacheKey (serverId : String) (mcpRequest : JsValue) : String :=
  let method := getPropD mcpRequest "method"
  let params := getPropD mcpRequest "params"
  let paramsHash :=
    if truthy params then md5Hex ((stringifyV params).getD "undefined")
    else "no-params"
  serverId ++ ":" ++ jsTemplate method ++ ":" ++ paramsHash

/-- One node-cache entry: key, stored value and absolute expiry (ms). -/
structure CacheEntry where
  key : String
  value : JsValue
  expiry : Nat

/-- CacheManager state: the node-cache store plus the hit/miss/set stats. -/
structure CacheM where
  entries : List CacheEntry
  hits : Nat
  misses : Nat
  sets : Nat

/-- The freshly-constructed CacheManager. -/
def emptyCacheM : CacheM := { entries := [], hits := 0, misses := 0, sets := 0 }

/-- node-cache get: the stored value when the key is present and not expired
(an entry is expired when its expiry timestamp is strictly in the past). -/
def cacheLookup (entries : List CacheEntry) (key : String) (now : Nat) : Option JsValue :=
  match entries.find? (fun e => e.key == key) with
  | some e => if now ≤ e.expiry then some e.value else none
  | none => none

/-- node-cache set: replace the entry for the key or add a new one, with
expiry now + ttl seconds. -/
def cacheInsert (entries : List CacheEntry) (key : String) (v : JsValue) (expiry : Nat) :
    List CacheEntry :=
  match entries with
  | [] => [{ key := key, value := v, expiry := expiry }]
  | e :: rest =>
      if e.key == key then { key := key, value := v, expiry := expiry } :: rest
      else e :: cacheInsert rest key v expiry

/-- CacheManager get: returns null (none) for non-cacheable methods without
touching the store; otherwise looks the key up, counting a hit only for a
truthy cached value (the JS source tests the cached value for truthiness). -/
def cacheGet (cm : CacheM) (serverId : String) (mcpRequest : JsValue) (now : Nat) :
    Option JsValue × CacheM :=
  if !(shouldCache (jsTemplate (getPropD mcpRequest "method"))) then (none, cm)
  else
    let key := generateCacheKey serverId mcpRequest
    match cacheLookup cm.entries key now with
    | some v =>
        if truthy v then (some v, { cm with hits := cm.hits + 1 })
        else (none, { cm with misses := cm.misses + 1 })
    | none => (none, { cm with misses := cm.misses + 1 })

/-- CacheManager set: returns unchanged for non-cacheable methods; returns
unchanged when response.error is truthy (only successful responses are
cached); otherwise stores the response under the generated key with the
method TTL. -/
def cacheSet (cm : CacheM) (serverId : String) (mcpRequest : JsValue) (response : JsValue)
    (now : Nat) : CacheM :=
  let method := jsTemplate (getPropD mcpRequest "method")
  if !(shouldCache method) then cm
  else if truthy (getPropD response "error") then cm
  else
    let key := generateCacheKey serverId mcpRequest
    let ttl := getCacheTTL method
    { cm with
        entries := cacheInsert cm.entries key response (now + ttl * 1000)
        sets := cm.sets + 1 }

/-! ## CircuitBreaker (the circuit-breaker module) -/

/-- Circuit breaker states. -/
inductive CBState where
  | CLOSED : CBState
  | OPEN : CBState
  | HALF_OPEN : CBState
deriving DecidableEq, Repr

/-- One CircuitBreaker instance: configuration, state-machine fields and the
statistics counters from the JS constructor. -/
structure CircuitBreaker where
  serverId : String
  failureThreshold : Nat
  recoveryTimeout : Nat
  monitoringPeriod : Nat
  state : CBState
  failureCount : Nat
  successCount : Nat
  nextAttempt : Nat
  lastFailureTime : Option Nat
  totalRequests : Nat
  totalFailures : Nat
  totalSuccesses : Nat
  circuitBreakerTrips : Nat
deriving DecidableEq, Repr

/-- The breaker as constructed by the manager for a new serverId (the
ProxyManager passes failureThreshold 5 and recoveryTimeout 30000; nextAttempt
is initialized to the construction time). -/
def newCircuitBreaker (serverId : String) (now : Nat) : CircuitBreaker :=
  { serverId := serverId
    failureThreshold := 5
    recoveryTimeout := 30000
    monitoringPeriod := 60000
    state := .CLOSED
    failureCount := 0
    successCount := 0
    nextAttempt := now
    lastFailureTime := none
    totalRequests := 0
    totalFailures := 0
    totalSuccesses := 0
    circuitBreakerTrips := 0 }

/-- trip: open the breaker and schedule the next attempt after
recoveryTimeout. -/
def CircuitBreaker.trip (cb : CircuitBreaker) (now : Nat) : CircuitBreaker :=
  { cb with
      state := .OPEN
      nextAttempt := now + cb.recoveryTimeout
      circuitBreakerTrips := cb.circuitBreakerTrips + 1 }

/-- reset: back to CLOSED with both counters zeroed (nextAttempt is set to
the current time, as Date.now() in the source). -/
def CircuitBreaker.reset (cb : CircuitBreaker) (now : Nat) : CircuitBreaker :=
  { cb with state := .CLOSED, failureCount := 0, successCount := 0, nextAttempt := now }

/-- onSuccess: bump the success counters, then reset when HALF_OPEN; when
CLOSED, decay the failure count by one floored at zero (Math.max(0, n - 1),
which on Nat is truncated subtraction). -/
def CircuitBreaker.onSuccess (cb : CircuitBreaker) (now : Nat) : CircuitBreaker :=
  let cb := { cb with
                totalSuccesses := cb.totalSuccesses + 1
                successCount := cb.successCount + 1 }
  if cb.state = .HALF_OPEN then cb.reset now
  else if cb.state = .CLOSED then { cb with failureCount := cb.failureCount - 1 }
  else cb

/-- onFailure: bump the failure counters and record the time; trip when
CLOSED and the incremented count reaches the threshold, and trip immediately
when HALF_OPEN. -/
def CircuitBreaker.onFailure (cb : CircuitBreaker) (now : Nat) : CircuitBreaker :=
  let cb := { cb with
                totalFailures := cb.totalFailures + 1
                failureCount := cb.failureCount + 1
                lastFailureTime := some now }
  if cb.state = .CLOSED ∧ cb.failureThreshold ≤ cb.failureCount then cb.trip now
  else if cb.state = .HALF_OPEN then cb.trip now
  else cb

/-- The error thrown by execute when the breaker short-circuits (it carries
the code CIRCUIT_BREAKER_OPEN read by processRequest). -/
def circuitOpenError (serverId : String) : JsError :=
  { code := some "CIRCUIT_BREAKER_OPEN"
    message := "熔断器开启 - 服务 " ++ serverId ++ " 暂时不可用"
    respStatus := none
    respData := .null }

/-- The synchronous prefix of execute, up to the await of the protected
call: counts the request, and in OPEN either rejects (when the current time
is before nextAttempt) or moves to HALF_OPEN and admits the call.  The
returned boolean is true exactly when the protected call is invoked.  In
CLOSED and in HALF_OPEN the call is always admitted. -/
def CircuitBreaker.executeBegin (cb : CircuitBreaker) (now : Nat) : Bool × CircuitBreaker :=
  let cb := { cb with totalRequests := cb.totalRequests + 1 }
  if cb.state = .OPEN then
    if now < cb.nextAttempt then (false, cb)
    else (true, { cb with state := .HALF_OPEN })
  else (true, cb)

/-- execute for a single sequential call: the admission prefix followed, when
the call is admitted, by the outcome bookkeeping (onSuccess or onFailure) and
propagation of the result.  The outcome argument is what the awaited
protected call would produce; the final boolean reports whether it was
invoked at all. -/
def CircuitBreaker.execute (cb : CircuitBreaker) (now : Nat)
    (outcome : Except JsError JsValue) :
    Except JsError JsValue × CircuitBreaker × Bool :=
  let (admitted, cb1) := cb.executeBegin now
  if admitted then
    match outcome with
    | .ok v => (.ok v, cb1.onSuccess now, true)
    | .error e => (.error e, cb1.onFailure now, true)
  else (.error (circuitOpenError cb.serverId), cb1, false)

/-! ## ProxyManager: retry policy, forwarding, and the request pipeline -/

/-- The default ProxyManager configuration values used by setupAxiosRetry
(options.retryAttempts or 3, options.retryDelay or 500,
options.maxRetryDelay or 3000). -/
def retryAttemptsConfig : Nat := 3
/-- Default retryDelay (ms). -/
def retryDelayConfig : Nat := 500
/-- Default maxRetryDelay (ms). -/
def maxRetryDelayConfig : Nat := 3000

/-- Modelled from the axios-retry dependency (not part of this repository):
isNetworkOrIdempotentRequestError for the POST requests issued by
forwardRequest reduces to isNetworkError, which holds only for errors that
carry no HTTP response, have an error code, and whose code is not
ECONNABORTED (POST is not an idempotent method, so the idempotent branch of
the library predicate is always false here). -/
def isNetworkOrIdempotentRequestError (e : JsError) : Bool :=
  e.respStatus = none && e.code.isSome && !(e.code = some "ECONNABORTED")

/-- The retryCondition installed by setupAxiosRetry: network errors, or
responses with a server-error (at least 500) status. -/
def retryCondition (e : JsError) : Bool :=
  isNetworkOrIdempotentRequestError e ||
    (match e.respStatus with
     | some status => decide (500 ≤ status)
     | none => false)

/-- The retryDelay function installed by setupAxiosRetry: for the n-th retry,
min(retryDelay * 2 ^ (n - 1), maxRetryDelay). -/
def retryDelayFn (retryCount : Nat) : Nat :=
  min (retryDelayConfig * 2 ^ (retryCount - 1)) maxRetryDelayConfig

/-- getPriority: the static method-to-priority table (higher is served
first); unknown methods get 1. -/
def getPriority (method : String) : Nat :=
  match method with
  | "initialize" => 10
  | "tools/list" => 8
  | "tools/call" => 5
  | "notifications/initialized" => 7
  | _ => 1

/-- The format error thrown by forwardRequest on a non-object upstream
payload (a plain Error: no code property, no attached response). -/
def formatError : JsError :=
  { code := none
    message := "Dify 返回了无效的响应格式"
    respStatus := none
    respData := .null }

/-- forwardRequest, applied to the outcome of the (already retried)
axios.post call: a successful reply whose data is truthy and of object type
is returned as-is; any other successful reply raises the format error; a
transport failure is rethrown unchanged. -/
def forwardRequest (axiosResult : Except JsError JsValue) : Except JsError JsValue :=
  match axiosResult with
  | .ok data => if truthy data && isObjectT data then .ok data else .error formatError
  | .error e => .error e

/-- Which collaborators a single processRequest call touched: whether the
CacheManager was consulted or written, whether a task went through the
global queue, and whether the protected forward call (the network) was
invoked. -/
structure Trace where
  cacheChecked : Bool := false
  cacheStored : Bool := false
  queueSubmitted : Bool := false
  networkInvoked : Bool := false
deriving DecidableEq, Repr

/-- Breaker registry lookup (Map.has / Map.get on serverQueues-style maps). -/
def lookupBreaker : List (String × CircuitBreaker) → String → Option CircuitBreaker
  | [], _ => none
  | (k, b) :: rest, serverId => if serverId = k then some b else lookupBreaker rest serverId

/-- Breaker registry update (Map.set). -/
def setBreaker : List (String × CircuitBreaker) → String → CircuitBreaker →
    List (String × CircuitBreaker)
  | [], serverId, b => [(serverId, b)]
  | (k, b0) :: rest, serverId, b =>
      if serverId = k then (serverId, b) :: rest else (k, b0) :: setBreaker rest serverId b

/-- CircuitBreakerManager.getBreaker: return the existing breaker for the
serverId or lazily create one with the manager defaults. -/
def getBreaker (breakers : List (String × CircuitBreaker)) (serverId : String) (now : Nat) :
    CircuitBreaker × List (String × CircuitBreaker) :=
  match lookupBreaker breakers serverId with
  | some b => (b, breakers)
  | none =>
      let b := newCircuitBreaker serverId now
      (b, setBreaker breakers serverId b)

/-- The mutable state owned by one ProxyManager: the CacheManager and the
breaker registry (the per-server queues are created but never used by the
dispatch path and carry no state relevant to it). -/
structure ProxyState where
  cache : CacheM
  breakers : List (String × CircuitBreaker)

/-- A freshly-constructed ProxyManager. -/
def freshProxyState : ProxyState := { cache := emptyCacheM, breakers := [] }

/-- The observable completion of processRequest: either the promise resolves
with a response value, or it rejects with a raw exception (the latter should
be impossible if the never-throws contract held). -/
inductive PRResult where
  | resolved : JsValue → PRResult
  | thrown : JsError → PRResult

/-- The catch block of processRequest: the console.error template reads
mcpRequest.method, so a null or undefined request makes the catch block
itself throw; otherwise a CIRCUIT_BREAKER_OPEN error is translated to a
-32003 response echoing mcpRequest.id, and everything else goes through
handleProxyError. -/
def processRequestCatch (mcpRequest : JsValue) (serverId : String) (e : JsError) :
    PRResult :=
  match getProp mcpRequest "method" with
  | .error te => .thrown te
  | .ok _ =>
      if e.code = some "CIRCUIT_BREAKER_OPEN" then
        match getProp mcpRequest "id" with
        | .error te => .thrown te
        | .ok idv =>
            .resolved (createErrorResponse CIRCUIT_BREAKER_OPEN e.message
              (JsValue.obj [("server_id", JsValue.str serverId)]) (normArg idv))
      else .resolved (handleProxyError e serverId)

/-- processRequest for one request against an otherwise idle manager:
validation, cache lookup, lazy breaker acquisition, admission through the
global queue (modelled as immediate execution, the queue being idle), the
breaker-protected forward call, caching of the successful result, and the
catch block.  The axiosResult argument is the outcome the retried axios.post
of forwardRequest would produce if the network were reached; the returned
Trace records which collaborators were actually touched. -/
def processRequest (st : ProxyState) (serverId : String) (mcpRequest : JsValue)
    (now : Nat) (axiosResult : Except JsError JsValue) :
    PRResult × ProxyState × Trace :=
  if !(isValidMCPRequest mcpRequest) then
    match getProp mcpRequest "id" with
    | .error te => (processRequestCatch mcpRequest serverId te, st, {})
    | .ok idv =>
        (.resolved (createErrorResponse INVALID_REQUEST "无效的 MCP 请求格式"
            JsValue.null (normArg idv)), st, {})
  else
    match cacheGet st.cache serverId mcpRequest now with
    | (some cached, cm1) =>
        (.resolved cached, { st with cache := cm1 }, { cacheChecked := true })
    | (none, cm1) =>
        let (cb, brs1) := getBreaker st.breakers serverId now
        let (result, cb1, invoked) := cb.execute now (forwardRequest axiosResult)
        let st1 : ProxyState := { cache := cm1, breakers := setBreaker brs1 serverId cb1 }
        match result with
        | .ok v =>
            let cm2 := cacheSet st1.cache serverId mcpRequest v now
            (.resolved v, { st1 with cache := cm2 },
              { cacheChecked := true, cacheStored := true, queueSubmitted := true,
                networkInvoked := invoked })
        | .error e =>
            (processRequestCatch mcpRequest serverId e, st1,
              { cacheChecked := true, queueSubmitted := true, networkInvoked := invoked })

/-! ## Fixtures and derived definitions used by the verification -/

/-- The error field code of a resolved response (undefined when the promise
was rejected or the field chain is absent). -/
def resultErrorCode : PRResult → JsValue
  | .resolved v => getPropD (getPropD v "error") "code"
  | .thrown _ => JsValue.undefined

/-- The resolved response value (undefined when the promise was rejected). -/
def resultResponse : PRResult → JsValue
  | .resolved v => v
  | .thrown _ => JsValue.undefined

/-- n consecutive executions of the breaker whose protected call fails with
the given error, all at the same instant. -/
def executeFailures (cb : CircuitBreaker) (now : Nat) (e : JsError) : Nat → CircuitBreaker
  | 0 => cb
  | n + 1 => ((executeFailures cb now e n).execute now (.error e)).2.1

/-- A well-formed tools/call request with id 7. -/
def sampleRequest : JsValue :=
  JsValue.obj [("jsonrpc", JsValue.str "2.0"), ("method", JsValue.str "tools/call"),
               ("params", JsValue.obj [("q", JsValue.str "x")]), ("id", JsValue.num 7)]

/-- A connection-refused transport error as produced by the http stack. -/
def connRefusedError : JsError :=
  { code := some "ECONNREFUSED", message := "connect ECONNREFUSED",
    respStatus := none, respData := .null }

/-- A breaker for server s that has tripped with nextAttempt 30000. -/
def openBreakerSample : CircuitBreaker :=
  { newCircuitBreaker "s" 0 with state := .OPEN, nextAttempt := 30000 }

/-- A manager state holding the tripped breaker for server s. -/
def openProxyState : ProxyState :=
  { cache := emptyCacheM, breakers := [("s", openBreakerSample)] }

/-! ## Helper lemmas -/

/-- On a valid request, property access never throws (validity requires
truthiness, which excludes null and undefined). -/
theorem getProp_of_valid (r : JsValue) (k : String) (hv : isValidMCPRequest r = true) :
    getProp r k = Except.ok (getPropD r k) := by
  cases r <;> simp_all [isValidMCPRequest, truthy, getProp, getPropD]

/-- A breaker in OPEN before its nextAttempt rejects without invoking the
protected call, only counting the request. -/
theorem execute_open_short_circuits (cb : CircuitBreaker) (now : Nat)
    (o : Except JsError JsValue) (hs : cb.state = CBState.OPEN)
    (hlt : now < cb.nextAttempt) :
    cb.execute now o =
      (Except.error (circuitOpenError cb.serverId),
       { cb with totalRequests := cb.totalRequests + 1 }, false) := by
  simp [CircuitBreaker.execute, CircuitBreaker.executeBegin, hs, hlt]

/-- A breaker not in OPEN always admits the protected call. -/
theorem execute_not_open_admits (cb : CircuitBreaker) (now : Nat)
    (o : Except JsError JsValue) (hs : cb.state ≠ CBState.OPEN) :
    cb.execute now o =
      match o with
      | .ok v =>
          (.ok v, ({ cb with totalRequests := cb.totalRequests + 1 }).onSuccess now, true)
      | .error e =>
          (.error e, ({ cb with totalRequests := cb.totalRequests + 1 }).onFailure now, true) := by
  cases o <;> simp [CircuitBreaker.execute, CircuitBreaker.executeBegin, hs]

/-- A null id on createErrorResponse omits the id key. -/
theorem createErrorResponse_null_id (code : Int) (msg : String) (data : JsValue) :
    hasField (createErrorResponse code msg data JsValue.null) "id" = false := by
  rfl

/-! ## Claim theorems -/

/-- C1: the claim says processRequest never rejects, for every input
including null and undefined.  Evaluating the embedded pipeline at the
failing inputs null and undefined shows the promise rejecting with a raw
TypeError instead: validation correctly fails, but building the -32600
response reads mcpRequest.id (throwing inside the try block), and the catch
block itself reads mcpRequest.method in its console.error template, so the
TypeError escapes the catch block and crosses the core boundary. -/
theorem c1_processRequest_null_rejects (st : ProxyState) (serverId : String)
    (now : Nat) (axiosResult : Except JsError JsValue) :
    (processRequest st serverId JsValue.null now axiosResult).1 =
        PRResult.thrown (typeErrorRead "null" "method") ∧
    (processRequest st serverId JsValue.undefined now axiosResult).1 =
        PRResult.thrown (typeErrorRead "undefined" "method") :=
  ⟨rfl, rfl⟩

/-- C2 counterexample: the request with jsonrpc 2.0, the empty string as
method and id 1 is malformed under the claim (its method is not a non-empty
string), yet isValidMCPRequest accepts it (the JS source only checks typeof),
so processRequest forwards it: the network is invoked and the upstream reply
is returned verbatim instead of a -32600 error. -/
theorem c2_counterexample :
    isValidMCPRequest (JsValue.obj [("jsonrpc", JsValue.str "2.0"),
        ("method", JsValue.str ""), ("id", JsValue.num 1)]) = true ∧
    (processRequest freshProxyState "srv"
        (JsValue.obj [("jsonrpc", JsValue.str "2.0"), ("method", JsValue.str ""),
                      ("id", JsValue.num 1)])
        0 (Except.ok (JsValue.obj [("result", JsValue.str "ok")]))).2.2.networkInvoked
      = true ∧
    (processRequest freshProxyState "srv"
        (JsValue.obj [("jsonrpc", JsValue.str "2.0"), ("method", JsValue.str ""),
                      ("id", JsValue.num 1)])
        0 (Except.ok (JsValue.obj [("result", JsValue.str "ok")]))).1
      = PRResult.resolved (JsValue.obj [("result", JsValue.str "ok")]) :=
  ⟨rfl, rfl, rfl⟩

/-- C2 amended: for every request that fails the implemented envelope check
(falsy, or jsonrpc not the string 2.0, or method not a string — the empty
string is accepted — or id undefined) and is not null or undefined (those
reject, see C1), processRequest returns exactly the -32600 error response,
leaves the manager state unchanged, and touches neither the cache nor the
queue nor the network. -/
theorem c2_invalid_envelope_short_circuits (st : ProxyState) (serverId : String)
    (r : JsValue) (now : Nat) (axiosResult : Except JsError JsValue)
    (hv : isValidMCPRequest r = false) (hn : r ≠ JsValue.null) (hu : r ≠ JsValue.undefined) :
    processRequest st serverId r now axiosResult =
      (PRResult.resolved (createErrorResponse INVALID_REQUEST "无效的 MCP 请求格式"
          JsValue.null (normArg (getPropD r "id"))), st, {}) := by
  have hok : getProp r "id" = Except.ok (getPropD r "id") := by
    cases r with
    | null => exact absurd rfl hn
    | undefined => exact absurd rfl hu
    | bool b => rfl
    | num n => rfl
    | str s => rfl
    | arr xs => rfl
    | obj fs => rfl
  simp [processRequest, hv, hok]

/-- C2 witness: the amended theorem applied to a request whose jsonrpc tag
is 1.0. -/
theorem c2_witness :
    processRequest freshProxyState "srv"
        (JsValue.obj [("jsonrpc", JsValue.str "1.0"), ("method", JsValue.str "tools/list"),
                      ("id", JsValue.num 3)]) 0 (Except.ok JsValue.null) =
      (PRResult.resolved (createErrorResponse INVALID_REQUEST "无效的 MCP 请求格式"
          JsValue.null (JsValue.num 3)), freshProxyState, {}) :=
  c2_invalid_envelope_short_circuits freshProxyState "srv" _ 0 (Except.ok JsValue.null)
    rfl (by intro h; cases h) (by intro h; cases h)

set_option maxRecDepth 10000 in
/-- C3 counterexample: two requests to the same backend with the same method
whose params are semantically identical objects differing only in field
order (a permutation of the same field list) produce different cache keys:
generateCacheKey hashes the raw JSON.stringify serialization, which preserves
field order, and performs no canonicalization. -/
theorem c3_counterexample :
    [("a", JsValue.num 1), ("b", JsValue.num 2)].Perm
        [("b", JsValue.num 2), ("a", JsValue.num 1)] ∧
    generateCacheKey "srv" (JsValue.obj [("jsonrpc", JsValue.str "2.0"),
        ("method", JsValue.str "tools/list"),
        ("params", JsValue.obj [("a", JsValue.num 1), ("b", JsValue.num 2)]),
        ("id", JsValue.num 1)]) ≠
    generateCacheKey "srv" (JsValue.obj [("jsonrpc", JsValue.str "2.0"),
        ("method", JsValue.str "tools/list"),
        ("params", JsValue.obj [("b", JsValue.num 2), ("a", JsValue.num 1)]),
        ("id", JsValue.num 1)]) :=
  ⟨(List.Perm.swap _ _ _).symm, by decide⟩

/-- C3 amended: the key is a function of the backend id, the method string
and the exact serialized form of params: two requests whose params agree (or
at least agree in truthiness and in JSON.stringify output) get the same key;
params that serialize differently — in particular semantically identical
objects with different field order — may get different keys (see the
counterexample). -/
theorem c3_same_serialization_same_key (serverId : String) (r1 r2 : JsValue)
    (hm : jsTemplate (getPropD r1 "method") = jsTemplate (getPropD r2 "method"))
    (ht : truthy (getPropD r1 "params") = truthy (getPropD r2 "params"))
    (hs : stringifyV (getPropD r1 "params") = stringifyV (getPropD r2 "params")) :
    generateCacheKey serverId r1 = generateCacheKey serverId r2 := by
  simp only [generateCacheKey]
  rw [hm, ht, hs]

/-- C3 witness: the amended theorem applied to two requests with identically
serialized params (same field order) but different id fields. -/
theorem c3_witness :
    generateCacheKey "srv" (JsValue.obj [("method", JsValue.str "tools/list"),
        ("params", JsValue.obj [("a", JsValue.num 1)]), ("id", JsValue.num 1)]) =
    generateCacheKey "srv" (JsValue.obj [("method", JsValue.str "tools/list"),
        ("params", JsValue.obj [("a", JsValue.num 1)]), ("id", JsValue.num 2)]) :=
  c3_same_serialization_same_key "srv" _ _ rfl rfl rfl

set_option maxRecDepth 8192 in
/-- C4: a breaker in OPEN strictly before nextAttempt fails immediately with
the circuit-open error and never invokes the protected call; through
processRequest this surfaces as a -32003 error response with no network
attempt; and five consecutive failures of a fresh breaker (threshold 5) trip
it to OPEN with nextAttempt = now + 30000, after which any call strictly
within the recovery window is rejected without invoking the backend. -/
theorem c4_circuit_open_short_circuit :
    (∀ (cb : CircuitBreaker) (now : Nat) (o : Except JsError JsValue),
        cb.state = CBState.OPEN → now < cb.nextAttempt →
        (cb.execute now o).2.2 = false ∧
        (cb.execute now o).1 = Except.error (circuitOpenError cb.serverId))
  ∧ (∀ (st : ProxyState) (sid : String) (r : JsValue) (now : Nat)
        (ax : Except JsError JsValue) (cb : CircuitBreaker),
        isValidMCPRequest r = true →
        (cacheGet st.cache sid r now).1 = none →
        lookupBreaker st.breakers sid = some cb →
        cb.state = CBState.OPEN → now < cb.nextAttempt →
        (processRequest st sid r now ax).1 =
          PRResult.resolved (createErrorResponse CIRCUIT_BREAKER_OPEN
            (circuitOpenError cb.serverId).message
            (JsValue.obj [("server_id", JsValue.str sid)])
            (normArg (getPropD r "id"))) ∧
        (processRequest st sid r now ax).2.2.networkInvoked = false)
  ∧ (∀ (sid : String) (t0 t : Nat) (e : JsError),
        (executeFailures (newCircuitBreaker sid t0) t e 5).state = CBState.OPEN ∧
        (executeFailures (newCircuitBreaker sid t0) t e 5).nextAttempt = t + 30000)
  ∧ (∀ (sid : String) (t0 t now : Nat) (e : JsError) (o : Except JsError JsValue),
        now < t + 30000 →
        ((executeFailures (newCircuitBreaker sid t0) t e 5).execute now o).2.2 = false ∧
        ((executeFailures (newCircuitBreaker sid t0) t e 5).execute now o).1 =
          Except.error (circuitOpenError sid)) := by
  refine ⟨?_, ?_, ?_, ?_⟩
  · intro cb now o hs hlt
    rw [execute_open_short_circuits cb now o hs hlt]
    exact ⟨rfl, rfl⟩
  · intro st sid r now ax cb hv hc hb hs hlt
    rcases hcg : cacheGet st.cache sid r now with ⟨o, cm1⟩
    rw [hcg] at hc
    simp only at hc
    subst hc
    have hmeth := getProp_of_valid r "method" hv
    have hid := getProp_of_valid r "id" hv
    simp only [processRequest, hv, Bool.not_true, Bool.false_eq_true, if_false, hcg,
      getBreaker, hb, execute_open_short_circuits cb now (forwardRequest ax) hs hlt,
      processRequestCatch, hmeth, hid]
    simp [circuitOpenError]
  · intro sid t0 t e
    simp [executeFailures, CircuitBreaker.execute, CircuitBreaker.executeBegin,
          CircuitBreaker.onFailure, CircuitBreaker.trip, newCircuitBreaker]
  · intro sid t0 t now e o hlt
    have h5 : (executeFailures (newCircuitBreaker sid t0) t e 5).state = CBState.OPEN ∧
        (executeFailures (newCircuitBreaker sid t0) t e 5).nextAttempt = t + 30000 ∧
        (executeFailures (newCircuitBreaker sid t0) t e 5).serverId = sid := by
      simp [executeFailures, CircuitBreaker.execute, CircuitBreaker.executeBegin,
            CircuitBreaker.onFailure, CircuitBreaker.trip, newCircuitBreaker]
    rw [execute_open_short_circuits _ now o h5.1 (by rw [h5.2.1]; exact hlt)]
    rw [h5.2.2]
    exact ⟨rfl, rfl⟩

/-- C4 witness: the theorem applied to the tripped sample breaker at time
100, to the manager state holding it with the sample request, and to the
five-failure scenario at time 1000 followed by a call at time 5000. -/
theorem c4_witness :
    ((openBreakerSample.execute 100 (Except.ok JsValue.null)).2.2 = false) ∧
    ((processRequest openProxyState "s" sampleRequest 100
        (Except.ok JsValue.null)).2.2.networkInvoked = false) ∧
    ((executeFailures (newCircuitBreaker "s" 0) 1000 connRefusedError 5).state
        = CBState.OPEN) ∧
    (((executeFailures (newCircuitBreaker "s" 0) 1000 connRefusedError 5).execute 5000
        (Except.ok JsValue.null)).2.2 = false) :=
  ⟨(c4_circuit_open_short_circuit.1 openBreakerSample 100 (Except.ok JsValue.null)
      rfl (by decide)).1,
   (c4_circuit_open_short_circuit.2.1 openProxyState "s" sampleRequest 100
      (Except.ok JsValue.null) openBreakerSample rfl rfl rfl rfl (by decide)).2,
   (c4_circuit_open_short_circuit.2.2.1 "s" 0 1000 connRefusedError).1,
   (c4_circuit_open_short_circuit.2.2.2 "s" 0 1000 5000 connRefusedError
      (Except.ok JsValue.null) (by decide)).1⟩

/-- C5 counterexample: take a tripped breaker whose recovery window has
elapsed (OPEN, nextAttempt 1000, current time 2000).  The first call is
admitted and moves the breaker to HALF_OPEN; executeBegin is the synchronous
prefix of execute up to the await of the protected call, so while that probe
is outstanding the breaker sits in HALF_OPEN — and a second call arriving in
that state is also admitted to the backend (executeBegin returns true), since
execute gates only the OPEN state.  This refutes the claim that no second
call may reach the backend while the probe is outstanding. -/
theorem c5_counterexample :
    (({ newCircuitBreaker "s" 0 with
          state := CBState.OPEN, nextAttempt := 1000 } : CircuitBreaker).executeBegin
        2000).1 = true ∧
    (({ newCircuitBreaker "s" 0 with
          state := CBState.OPEN, nextAttempt := 1000 } : CircuitBreaker).executeBegin
        2000).2.state = CBState.HALF_OPEN ∧
    ((({ newCircuitBreaker "s" 0 with
          state := CBState.OPEN, nextAttempt := 1000 } : CircuitBreaker).executeBegin
        2000).2.executeBegin 2000).1 = true :=
  ⟨rfl, rfl, rfl⟩

/-- C5 amended: once nextAttempt is reached, the next call on an OPEN breaker
transitions it to HALF_OPEN and is admitted as a probe, and a failure in
HALF_OPEN re-trips the breaker to OPEN immediately — regardless of the
failure count against the threshold — with a fresh
nextAttempt = now + recoveryTimeout; however, the single-probe restriction is
not enforced: any call that arrives while the breaker is HALF_OPEN is also
admitted to the backend. -/
theorem c5_half_open_probe_and_retrip :
    (∀ (cb : CircuitBreaker) (now : Nat),
        cb.state = CBState.OPEN → cb.nextAttempt ≤ now →
        (cb.executeBegin now).1 = true ∧
        (cb.executeBegin now).2.state = CBState.HALF_OPEN)
  ∧ (∀ (cb : CircuitBreaker) (now : Nat),
        cb.state = CBState.HALF_OPEN →
        (cb.onFailure now).state = CBState.OPEN ∧
        (cb.onFailure now).nextAttempt = now + cb.recoveryTimeout ∧
        (cb.onFailure now).circuitBreakerTrips = cb.circuitBreakerTrips + 1)
  ∧ (∀ (cb : CircuitBreaker) (now : Nat),
        cb.state = CBState.HALF_OPEN → (cb.executeBegin now).1 = true) := by
  refine ⟨?_, ?_, ?_⟩
  · intro cb now hs hle
    constructor <;>
      simp [CircuitBreaker.executeBegin, hs, Nat.not_lt.mpr hle]
  · intro cb now hs
    refine ⟨?_, ?_, ?_⟩ <;>
      simp [CircuitBreaker.onFailure, CircuitBreaker.trip, hs]
  · intro cb now hs
    simp [CircuitBreaker.executeBegin, hs]

/-- C5 witness: the amended theorem applied to the tripped sample breaker at
time 40000 (past its nextAttempt of 30000) and to a HALF_OPEN breaker
failing at time 41000. -/
theorem c5_witness :
    ((openBreakerSample.executeBegin 40000).2.state = CBState.HALF_OPEN) ∧
    (({ newCircuitBreaker "s" 0 with
          state := CBState.HALF_OPEN } : CircuitBreaker).onFailure 41000).nextAttempt
        = 41000 + 30000 :=
  ⟨(c5_half_open_probe_and_retrip.1 openBreakerSample 40000 rfl (by decide)).2,
   (c5_half_open_probe_and_retrip.2.1
      { newCircuitBreaker "s" 0 with state := CBState.HALF_OPEN } 41000 rfl).2.1⟩

/-- C6: a success observed in HALF_OPEN resets both counters to zero and
returns the breaker to CLOSED; a success observed in CLOSED leaves it CLOSED
and decrements the failure count by exactly one, floored at zero
(Math.max(0, n - 1)). -/
theorem c6_onSuccess_behavior :
    (∀ (cb : CircuitBreaker) (now : Nat),
        cb.state = CBState.HALF_OPEN →
        (cb.onSuccess now).state = CBState.CLOSED ∧
        (cb.onSuccess now).failureCount = 0 ∧
        (cb.onSuccess now).successCount = 0)
  ∧ (∀ (cb : CircuitBreaker) (now : Nat),
        cb.state = CBState.CLOSED →
        (cb.onSuccess now).state = CBState.CLOSED ∧
        (cb.onSuccess now).failureCount = cb.failureCount - 1 ∧
        (0 < cb.failureCount → (cb.onSuccess now).failureCount + 1 = cb.failureCount) ∧
        (cb.failureCount = 0 → (cb.onSuccess now).failureCount = 0)) := by
  constructor
  · intro cb now hs
    refine ⟨?_, ?_, ?_⟩ <;>
      simp [CircuitBreaker.onSuccess, CircuitBreaker.reset, hs]
  · intro cb now hs
    refine ⟨?_, ?_, ?_, ?_⟩ <;>
      simp [CircuitBreaker.onSuccess, CircuitBreaker.reset, hs] <;>
      omega

/-- C6 witness: the theorem applied to a HALF_OPEN breaker with counters 3
and 2, and to a CLOSED breaker with failure count 3. -/
theorem c6_witness :
    (({ newCircuitBreaker "s" 0 with
          state := CBState.HALF_OPEN, failureCount := 3,
          successCount := 2 } : CircuitBreaker).onSuccess 50).failureCount = 0 ∧
    (({ newCircuitBreaker "s" 0 with
          failureCount := 3 } : CircuitBreaker).onSuccess 50).failureCount = 2 :=
  ⟨(c6_onSuccess_behavior.1
      { newCircuitBreaker "s" 0 with
          state := CBState.HALF_OPEN, failureCount := 3, successCount := 2 } 50 rfl).2.1,
   (c6_onSuccess_behavior.2
      { newCircuitBreaker "s" 0 with failureCount := 3 } 50 rfl).2.1⟩

/-- C7 counterexample: a response that carries an error key whose value is
null (falsy) is not an error for the cache guard, which tests response.error
for truthiness only — so the store operation is not a no-op: starting from
the empty cache, set on a cacheable method inserts the response, changing the
cache contents. -/
theorem c7_counterexample :
    hasField (JsValue.obj [("error", JsValue.null), ("result", JsValue.str "x")])
        "error" = true ∧
    (cacheSet emptyCacheM "srv"
        (JsValue.obj [("jsonrpc", JsValue.str "2.0"), ("method", JsValue.str "tools/list"),
                      ("id", JsValue.num 1)])
        (JsValue.obj [("error", JsValue.null), ("result", JsValue.str "x")])
        0).entries.length = 1 ∧
    emptyCacheM.entries.length = 0 :=
  ⟨rfl, rfl, rfl⟩

/-- C7 amended: whenever the response's error field is truthy — which covers
every structured error response, whose error field is an object — the cache
set operation is a no-op and the CacheManager state is unchanged (so a
repeated identical request is forwarded again rather than served from
cache); only a response whose error key holds a falsy value (such as null)
escapes the guard. -/
theorem c7_error_response_not_cached (cm : CacheM) (serverId : String)
    (mcpRequest response : JsValue) (now : Nat)
    (h : truthy (getPropD response "error") = true) :
    cacheSet cm serverId mcpRequest response now = cm := by
  simp [cacheSet, h]

/-- C7 witness: storing a -32004 error response built by createErrorResponse
leaves the empty cache unchanged. -/
theorem c7_witness :
    cacheSet emptyCacheM "srv"
        (JsValue.obj [("jsonrpc", JsValue.str "2.0"), ("method", JsValue.str "tools/list"),
                      ("id", JsValue.num 1)])
        (createErrorResponse PROXY_ERROR "Dify 服务器错误: 502" JsValue.null
          (JsValue.num 1))
        0 = emptyCacheM :=
  c7_error_response_not_cached emptyCacheM "srv" _ _ 0 rfl

/-- C8: the installed retryCondition retries exactly the connection-level
errors (no HTTP response) and the server-error statuses (at least 500), and
never a response with a status below 500 — in particular never a 4xx client
error; the configured attempt count is 3; and the backoff delay for the n-th
retry, min(500 * 2 ^ (n - 1), 3000), is non-decreasing and capped at the
3000 ms maximum, taking the values 500, 1000, 2000, 3000, 3000, ... -/
theorem c8_retry_policy :
    (∀ (e : JsError) (status : Nat), e.respStatus = some status → status < 500 →
        retryCondition e = false)
  ∧ (∀ (e : JsError) (status : Nat), e.respStatus = some status → 500 ≤ status →
        retryCondition e = true)
  ∧ (∀ e : JsError, retryCondition e = true →
        e.respStatus = none ∨ ∃ status, e.respStatus = some status ∧ 500 ≤ status)
  ∧ retryAttemptsConfig = 3
  ∧ (∀ n : Nat, retryDelayFn n ≤ retryDelayFn (n + 1))
  ∧ (∀ n : Nat, retryDelayFn n ≤ maxRetryDelayConfig)
  ∧ retryDelayFn 1 = 500 ∧ retryDelayFn 2 = 1000 ∧ retryDelayFn 3 = 2000 ∧
    retryDelayFn 4 = 3000 ∧ retryDelayFn 5 = 3000 := by
  refine ⟨?_, ?_, ?_, rfl, ?_, ?_, rfl, rfl, rfl, rfl, rfl⟩
  · intro e status hr hlt
    simp [retryCondition, isNetworkOrIdempotentRequestError, hr, Nat.not_le.mpr hlt]
  · intro e status hr hge
    simp [retryCondition, hr, hge]
  · intro e h
    rcases hr : e.respStatus with _ | status
    · exact Or.inl rfl
    · refine Or.inr ⟨status, rfl, ?_⟩
      simp [retryCondition, isNetworkOrIdempotentRequestError, hr] at h
      exact h
  · intro n
    refine min_le_min (Nat.mul_le_mul_left _ ?_) le_rfl
    exact Nat.pow_le_pow_right (by omega) (by omega)
  · intro n
    exact Nat.min_le_right _ _

/-- C8 witness: a 404 client error is not retried, a 502 server error is,
and the delay for the third retry is 2000 ms, below the 3000 ms cap. -/
theorem c8_witness :
    retryCondition { code := none, message := "Request failed with status code 404",
                     respStatus := some 404, respData := JsValue.null } = false ∧
    retryCondition { code := none, message := "Request failed with status code 502",
                     respStatus := some 502, respData := JsValue.null } = true ∧
    retryDelayFn 3 ≤ maxRetryDelayConfig :=
  ⟨c8_retry_policy.1 _ 404 rfl (by decide),
   c8_retry_policy.2.1 _ 502 rfl (by decide),
   c8_retry_policy.2.2.2.2.2.1 3⟩

/-- C9 counterexample: an upstream reply whose payload is the plain string
oops (not a structured object) makes forwardRequest throw the format error,
and the orchestrator surfaces it with code -32603 (INTERNAL_ERROR), not
-32004 (PROXY_ERROR): handleProxyError maps -32004 only to errors carrying
an HTTP response, and the format error carries none. -/
theorem c9_counterexample :
    forwardRequest (Except.ok (JsValue.str "oops")) = Except.error formatError ∧
    resultErrorCode (processRequest freshProxyState "s" sampleRequest 0
        (Except.ok (JsValue.str "oops"))).1 = JsValue.num INTERNAL_ERROR ∧
    JsValue.num INTERNAL_ERROR ≠ JsValue.num PROXY_ERROR :=
  ⟨rfl, rfl, by intro h; injection h with h2; exact absurd h2 (by decide)⟩

/-- C9 amended: a non-object upstream payload raises the non-retryable
format error, and the orchestrator surfaces it as the internal error
response (code -32603) rather than the generic proxy error -32004, which is
reserved for errors carrying an HTTP error response. -/
theorem c9_malformed_payload_internal_error :
    (∀ d : JsValue, (truthy d && isObjectT d) = false →
        forwardRequest (Except.ok d) = Except.error formatError)
  ∧ (∀ serverId : String, handleProxyError formatError serverId =
        createErrorResponse INTERNAL_ERROR "内部服务器错误"
          (JsValue.obj [("server_id", JsValue.str serverId)]) JsValue.null)
  ∧ (∀ (st : ProxyState) (sid : String) (r d : JsValue) (now : Nat)
        (cb : CircuitBreaker),
        isValidMCPRequest r = true →
        (cacheGet st.cache sid r now).1 = none →
        lookupBreaker st.breakers sid = some cb →
        cb.state = CBState.CLOSED →
        (truthy d && isObjectT d) = false →
        (processRequest st sid r now (Except.ok d)).1 =
          PRResult.resolved (createErrorResponse INTERNAL_ERROR "内部服务器错误"
            (JsValue.obj [("server_id", JsValue.str sid)]) JsValue.null)) := by
  refine ⟨?_, ?_, ?_⟩
  · intro d h
    simp [forwardRequest, h]
  · intro serverId
    rfl
  · intro st sid r d now cb hv hc hb hs hbad
    rcases hcg : cacheGet st.cache sid r now with ⟨o, cm1⟩
    rw [hcg] at hc
    simp only at hc
    subst hc
    have hmeth := getProp_of_valid r "method" hv
    have hfmt : forwardRequest (Except.ok d) = Except.error formatError := by
      simp [forwardRequest, hbad]
    have hno : cb.state ≠ CBState.OPEN := by
      rw [hs]; intro h2; cases h2
    simp only [processRequest, hv, Bool.not_true, Bool.false_eq_true, if_false, hcg,
      getBreaker, hb, hfmt, execute_not_open_admits cb now (Except.error formatError) hno,
      processRequestCatch, hmeth]
    rfl

/-- C9 witness: the amended theorem applied to the string payload oops on a
fresh manager whose registry holds a fresh CLOSED breaker for server s. -/
theorem c9_witness :
    (processRequest { cache := emptyCacheM, breakers := [("s", newCircuitBreaker "s" 0)] }
        "s" sampleRequest 0 (Except.ok (JsValue.str "oops"))).1 =
      PRResult.resolved (createErrorResponse INTERNAL_ERROR "内部服务器错误"
        (JsValue.obj [("server_id", JsValue.str "s")]) JsValue.null) :=
  c9_malformed_payload_internal_error.2.2
    { cache := emptyCacheM, breakers := [("s", newCircuitBreaker "s" 0)] }
    "s" sampleRequest (JsValue.str "oops") 0 (newCircuitBreaker "s" 0)
    rfl rfl rfl rfl rfl

/-- C10 counterexample: the sample request carries correlation id 7, but
the error response processRequest produces for its forwarding failure (a
connection-refused error mapped by handleProxyError) carries no id key at
all: handleProxyError never passes an id and createErrorResponse omits the
key for a null id. -/
theorem c10_counterexample :
    getPropD sampleRequest "id" = JsValue.num 7 ∧
    hasField (resultResponse (processRequest freshProxyState "s" sampleRequest 0
        (Except.error connRefusedError)).1) "error" = true ∧
    hasField (resultResponse (processRequest freshProxyState "s" sampleRequest 0
        (Except.error connRefusedError)).1) "id" = false :=
  ⟨rfl, rfl, rfl⟩

/-- C10 amended: createErrorResponse echoes a non-null id under the id key
and omits the key entirely for a null id; the error responses built by
handleProxyError (all forwarding failures: connection errors, timeouts, HTTP
errors and unclassified errors) never carry an id key, because every call in
that module leaves the id at its null default.  Only the validation-failure
and circuit-open paths of processRequest pass the request id through. -/
theorem c10_error_response_id_handling :
    (∀ (code : Int) (msg : String) (data id : JsValue), isNull id = false →
        getPropD (createErrorResponse code msg data id) "id" = id)
  ∧ (∀ (code : Int) (msg : String) (data : JsValue),
        hasField (createErrorResponse code msg data JsValue.null) "id" = false)
  ∧ (∀ (e : JsError) (sid : String), hasField (handleProxyError e sid) "id" = false) := by
  refine ⟨?_, ?_, ?_⟩
  · intro code msg data id h
    simp [createErrorResponse, h, getPropD, getProp, lookupField]
  · intro code msg data
    exact createErrorResponse_null_id code msg data
  · intro e sid
    unfold handleProxyError
    split
    · exact createErrorResponse_null_id _ _ _
    · split
      · exact createErrorResponse_null_id _ _ _
      · split <;> exact createErrorResponse_null_id _ _ _

/-- C10 witness: the amended theorem applied to id 7, and to the
connection-refused error response. -/
theorem c10_witness :
    getPropD (createErrorResponse CIRCUIT_BREAKER_OPEN "open" JsValue.null
        (JsValue.num 7)) "id" = JsValue.num 7 ∧
    hasField (handleProxyError connRefusedError "s") "id" = false :=
  ⟨c10_error_response_id_handling.1 CIRCUIT_BREAKER_OPEN "open" JsValue.null
      (JsValue.num 7) rfl,
   c10_error_response_id_handling.2.2 connRefusedError "s"⟩
